import Mathlib

/-
Shallow embedding of src/nchelpers/__init__.py (class CFDataset) and of the
two helpers it imports from nchelpers.util (whose source file is not part of
the repository snapshot; those two are modelled from the spec and marked so).

Conventions of the embedding:
- A netCDF dataset is modelled by the data the code reads from it: the ordered
  dimension-name list, the insertion-ordered variable mapping, and the global
  attributes.  Python dicts are modelled as association lists with unique keys,
  built only through dictInsert (Python dict assignment).
- Numeric time values are rationals (Python floats carrying exact values in
  the scenarios of interest).
- Raising is modelled with Except; each Python exception site gets its own
  NCError constructor.
- num2date (netCDF4, an external collaborator per the spec) is an arbitrary
  decoding function passed as a parameter.
-/

namespace NC

/-- A netCDF variable as the nchelpers code sees it: its dimension tuple, the
attributes the code reads (axis, compress, units, calendar, climatology) and
its numeric contents (t[:]). -/
structure NCVar where
  dims : List String
  axis : Option String
  compress : Option String
  units : Option String
  calendar : Option String
  climatology : Option String
  values : List Rat
deriving DecidableEq

/-- A CF dataset: ordered dimension names, insertion-ordered variable mapping
and global attributes (netCDF4.Dataset state read by CFDataset). -/
structure CFDataset where
  dimensions : List String
  varMap : List (String × NCVar)
  globalAttrs : List (String × String)
deriving DecidableEq

/-- A decoded calendar-aware datetime, as far as the code observes it
(strftime with %Y, %Y%m, %Y%m%d). -/
structure CFDate where
  year : Nat
  month : Nat
  day : Nat
deriving DecidableEq

/-- External date decoder (netCDF4.num2date): numeric value, units string,
calendar name to datetime.  The code treats it as a black box. -/
abbrev Num2Date := Rat → String → String → CFDate

/-- One constructor per Python exception site in src/nchelpers/__init__.py. -/
inductive NCError where
  | missingAxis            -- ValueError in time_steps (no T axis)
  | missingAttribute       -- AssertionError in time_steps (units/calendar)
  | keyError               -- Python KeyError (variable mapping lookup)
  | attributeError         -- Python AttributeError (getattr on a variable)
  | malformedUnits         -- ValueError in time_step_size (units pattern)
  | unsupportedResolution  -- ValueError in time_range_formatted
  | unresolvedMetadata     -- AttributeError from UnifiedMetadata.__getattr__
  | emptyData              -- ValueError from np.min/np.max on an empty array
deriving DecidableEq

/-- The time step descriptor returned by CFDataset.time_steps. -/
structure TimeDescriptor where
  units : String
  calendar : String
  numeric : List Rat
  datetimes : List CFDate
deriving DecidableEq

/-- Association-list lookup (Python dict indexing / hasattr+getattr). -/
def vlookup {α : Type} (k : String) : List (String × α) → Option α
  | [] => none
  | p :: rest => if p.1 = k then some p.2 else vlookup k rest

/-- Python dict assignment d[k] = v on an association list with unique keys:
replace the value in place when the key is present, else append. -/
def dictInsert (k v : String) : List (String × String) → List (String × String)
  | [] => [(k, v)]
  | p :: rest => if p.1 = k then (k, v) :: rest else p :: dictInsert k v rest

/-- variables[name] on a dataset. -/
def dsVar (ds : CFDataset) (name : String) : Option NCVar :=
  vlookup name ds.varMap

/-- The dim_to_axis table hard-coded in CFDataset.dim_axes_from_names. -/
def dim_to_axis_table : List (String × String) :=
  [("lat", "Y"), ("latitude", "Y"), ("lon", "X"), ("longitude", "X"),
   ("xc", "X"), ("yc", "Y"), ("x", "X"), ("y", "Y"),
   ("time", "T"), ("timeofyear", "T"),
   ("plev", "Z"), ("lev", "Z"), ("level", "Z")]

/-- dim_to_axis[dim] as a partial lookup. -/
def dim_to_axis (dim : String) : Option String :=
  vlookup dim dim_to_axis_table

/-- CFDataset.dim_names with no variable argument: all dimension names. -/
def dim_names (ds : CFDataset) : List String :=
  ds.dimensions

/-- The shared prologue of dim_axes_from_names and dim_axes:
Python `if not dim_names: dim_names = self.dim_names()`.  Note that the empty
list is falsy in Python, so an explicit empty list also falls back to the
dataset's full dimension list. -/
def resolveDims (ds : CFDataset) : Option (List String) → List String
  | none => dim_names ds
  | some l => if l = [] then dim_names ds else l

/-- CFDataset.dim_axes_from_names: the dict comprehension
\x7bdim_to_axis[dim]: dim for dim in dim_names if dim in dim_to_axis\x7d,
built left to right so that later names overwrite earlier ones that share an
axis code. -/
def dim_axes_from_names (ds : CFDataset) (arg : Option (List String)) :
    List (String × String) :=
  (resolveDims ds arg).foldl
    (fun acc dim =>
      match dim_to_axis dim with
      | some ax => dictInsert ax dim acc
      | none => acc)
    []

/-- CFDataset.dim_axes.  Starts from dim_axes_from_names (axis code to dim
name), then for each entry whose KEY (the axis code itself) is both a
dimension name and a variable name carrying an axis attribute, overwrites the
entry's VALUE with that attribute (or with S when the variable also has a
compress attribute), and finally inverts the mapping with a dict build. -/
def dim_axes (ds : CFDataset) (arg : Option (List String)) :
    List (String × String) :=
  let dns := resolveDims ds arg
  if dns = [] then []
  else
    let axis_to_dim := dim_axes_from_names ds (some dns)
    let overridden := axis_to_dim.map (fun p =>
      if ds.dimensions.contains p.1 then
        match dsVar ds p.1 with
        | some v =>
          match v.axis with
          | some a => (p.1, if v.compress.isSome then "S" else a)
          | none => p
        | none => p
      else p)
    overridden.foldl (fun acc p => dictInsert p.2 p.1 acc) []

/-- Structural prefix test on character lists. -/
def charsPrefix : List Char → List Char → Bool
  | [], _ => true
  | _ :: _, [] => false
  | c :: cs, d :: ds => if c = d then charsPrefix cs ds else false

/-- Structural substring test: the needle is a prefix of some suffix of the
haystack. -/
def charsContains : List Char → List Char → Bool
  | [], pat => charsPrefix pat []
  | c :: rest, pat => charsPrefix pat (c :: rest) || charsContains rest pat

/-- Python `pat in s` substring test. -/
def strContains (s pat : String) : Bool :=
  charsContains s.data pat.data

/-- CFDataset.important_varnames (alias dependent_varnames): variable names
that are not dimension names and do not contain the substring bnds.  The
Python code iterates a set difference whose order is unspecified; the model
keeps the variable-mapping insertion order. -/
def important_varnames (ds : CFDataset) : List String :=
  (ds.varMap.map Prod.fst).filter
    (fun v => !(ds.dimensions.contains v) && !(strContains v "bnds"))

/-- CFDataset.climatology_bounds_var_name.  The code tests membership of T in
the KEYS of the inverted dict returned by dim_axes (dimension names), then
evaluates `'climatology' in self.variables[time_axis]` - a membership test on
a netCDF4 Variable object whose semantics are external, so it is taken as a
parameter - and finally reads the climatology attribute (AttributeError when
the attribute is absent at that point). -/
def climatology_bounds_var_name (varContains : NCVar → String → Bool)
    (ds : CFDataset) : Except NCError (Option String) :=
  let axes := dim_axes ds none
  match vlookup "T" axes with
  | none => .ok none
  | some time_axis =>
    match dsVar ds time_axis with
    | none => .error .keyError
    | some v =>
      if varContains v "climatology" then
        match v.climatology with
        | some c => .ok (some c)
        | none => .error .attributeError
      else .ok none

/-- CFDataset.is_multi_year_mean: bool(climatology_bounds_var_name), with
Python falsiness of None and of the empty string. -/
def is_multi_year_mean (varContains : NCVar → String → Bool)
    (ds : CFDataset) : Except NCError Bool :=
  match climatology_bounds_var_name varContains ds with
  | .error e => .error e
  | .ok none => .ok false
  | .ok (some s) => .ok (!s.isEmpty)

/-- CFDataset.time_steps: locate the T axis among dim_axes_from_names over all
dimensions (ValueError when absent), look the time variable up
(KeyError when the dataset has no variable of that name), assert units and
calendar, and build the descriptor. -/
def time_steps (decode : Num2Date) (ds : CFDataset) :
    Except NCError TimeDescriptor :=
  match vlookup "T" (dim_axes_from_names ds none) with
  | none => .error .missingAxis
  | some time_axis =>
    match dsVar ds time_axis with
    | none => .error .keyError
    | some t =>
      match t.units, t.calendar with
      | some u, some c =>
        .ok ⟨u, c, t.values, t.values.map (fun q => decode q u c)⟩
      | some _, none => .error .missingAttribute
      | none, _ => .error .missingAttribute

/-- CFDataset.time_range: np.min and np.max of the numeric time values
(ValueError on an empty array). -/
def time_range (decode : Num2Date) (ds : CFDataset) :
    Except NCError (Rat × Rat) :=
  match time_steps decode ds with
  | .error e => .error e
  | .ok d =>
    match d.numeric with
    | [] => .error .emptyData
    | x :: xs => .ok (xs.foldl min x, xs.foldl max x)

/-- np.diff: successive differences. -/
def diffs : List Rat → List Rat
  | a :: b :: rest => (b - a) :: diffs (b :: rest)
  | _ => []

/-- Sorted insertion into a sorted list of rationals. -/
def insertRat (x : Rat) : List Rat → List Rat
  | [] => [x]
  | y :: ys => if x ≤ y then x :: y :: ys else y :: insertRat x ys

/-- Sorting, as np.median sorts its input (the sorted sequence of a list of
rationals is unique, so any correct sort agrees with numpy's). -/
def sortRat (l : List Rat) : List Rat :=
  l.foldr insertRat []

/-- np.median: middle element of the sorted list for odd length, mean of the
two middle elements for even length.  np.median of an empty array is nan in
numpy; the model returns 0, which the resolution classifier sends to the same
bucket (other) that nan reaches through always-false comparisons. -/
def median (l : List Rat) : Rat :=
  let s := sortRat l
  let n := s.length
  if n = 0 then 0
  else if n % 2 = 1 then s.getD (n / 2) 0
  else (s.getD (n / 2 - 1) 0 + s.getD (n / 2) 0) / 2

/-- The re.match('(days|hours|minutes|seconds) since.*', units) test of
CFDataset.time_step_size: the four alternatives anchored at the start of the
string, each followed by the literal ' since'; the trailing .* accepts
anything, so the test is exactly a prefix test. -/
def parse_time_units_scale (units : String) : Option String :=
  if charsPrefix "days since".data units.data then some "days"
  else if charsPrefix "hours since".data units.data then some "hours"
  else if charsPrefix "minutes since".data units.data then some "minutes"
  else if charsPrefix "seconds since".data units.data then some "seconds"
  else none

/-- Modelled from the spec: nchelpers.util.time_to_seconds is imported by the
code but its source file is not in the repository snapshot.  Per the spec it
converts a value expressed in the parsed unit (days, hours, minutes or
seconds) into seconds; e.g. 30 days become 2592000 seconds.  Unknown unit
tokens cannot reach it through time_step_size. -/
def time_to_seconds (x : Rat) (scale : String) : Rat :=
  if scale = "days" then x * 86400
  else if scale = "hours" then x * 3600
  else if scale = "minutes" then x * 60
  else x

/-- Modelled from the spec: nchelpers.util.resolution_standard_name is
imported by the code but its source file is not in the repository snapshot.
Per the spec it is a pure classification of the step size in seconds into
buckets around the daily (~86400 s), monthly (~2629800 s) and yearly
(~31536000 s) scales, with everything else labelled other.  Boundaries chosen
here: daily = [43200, 172800] (half a day to two days), monthly =
[2160000, 2851200] (25 to 33 days), yearly = [28382400, 34689600]
(328.5 to 401.5 days). -/
def resolution_standard_name (s : Rat) : String :=
  if 43200 ≤ s ∧ s ≤ 172800 then "daily"
  else if 2160000 ≤ s ∧ s ≤ 2851200 then "monthly"
  else if 28382400 ≤ s ∧ s ≤ 34689600 then "yearly"
  else "other"

/-- CFDataset.time_step_size: parse the unit token out of the units string
(ValueError when the pattern does not match), take the median of the
successive differences of the numeric time values, and convert it to
seconds. -/
def time_step_size (decode : Num2Date) (ds : CFDataset) : Except NCError Rat :=
  match time_steps decode ds with
  | .error e => .error e
  | .ok d =>
    match parse_time_units_scale d.units with
    | none => .error .malformedUnits
    | some scale => .ok (time_to_seconds (median (diffs d.numeric)) scale)

/-- CFDataset.time_resolution: resolution_standard_name of time_step_size. -/
def time_resolution (decode : Num2Date) (ds : CFDataset) :
    Except NCError String :=
  match time_step_size decode ds with
  | .error e => .error e
  | .ok s => .ok (resolution_standard_name s)

/-- Zero-padded decimal rendering, as strftime pads %Y to four digits and
%m, %d to two. -/
def padZeros (w : Nat) (n : Nat) : String :=
  String.mk (List.replicate (w - (toString n).length) '0') ++ toString n

/-- strftime restricted to the three format strings the code uses. -/
def strftimeFmt (fmt : String) (d : CFDate) : String :=
  if fmt = "%Y" then padZeros 4 d.year
  else if fmt = "%Y%m" then padZeros 4 d.year ++ padZeros 2 d.month
  else padZeros 4 d.year ++ padZeros 2 d.month ++ padZeros 2 d.day

/-- The dict \x7b'yearly': '%Y', 'monthly': '%Y%m', 'daily': '%Y%m%d'\x7d.get
lookup of CFDataset.time_range_formatted. -/
def fmtForResolution (res : String) : Option String :=
  if res = "yearly" then some "%Y"
  else if res = "monthly" then some "%Y%m"
  else if res = "daily" then some "%Y%m%d"
  else none

/-- CFDataset.time_range_formatted: pick the format from the resolution class
(ValueError when there is none), decode the numeric min and max, and join the
two formatted dates with a hyphen. -/
def time_range_formatted (decode : Num2Date) (ds : CFDataset) :
    Except NCError String :=
  match time_resolution decode ds with
  | .error e => .error e
  | .ok res =>
    match fmtForResolution res with
    | none => .error .unsupportedResolution
    | some fmt =>
      match time_range decode ds with
      | .error e => .error e
      | .ok (tmin, tmax) =>
        match time_steps decode ds with
        | .error e => .error e
        | .ok d =>
          .ok (strftimeFmt fmt (decode tmin d.units d.calendar) ++ "-" ++
               strftimeFmt fmt (decode tmax d.units d.calendar))

/-- The _aliases table of CFDataset.UnifiedMetadata. -/
def aliasTable : List (String × List (String × String)) :=
  [("institution", [("CMIP3", "institute"), ("CMIP5", "institute_id")]),
   ("model", [("CMIP3", "source"), ("CMIP5", "model_id")]),
   ("emissions", [("CMIP3", "experiment_id"), ("CMIP5", "experiment_id")]),
   ("run", [("CMIP3", "realization"), ("CMIP5", "parent_experiment_rip")]),
   ("project", [("CMIP3", "project_id"), ("CMIP5", "project_id")])]

/-- CFDataset.UnifiedMetadata.__getattr__:
getattr(dataset, _aliases[item][dataset.project_id]) with every failure -
unknown concept, missing or unrecognized project_id, missing underlying
attribute - collapsed by the bare except into one AttributeError. -/
def unified_metadata_get (ds : CFDataset) (item : String) :
    Except NCError String :=
  match vlookup item aliasTable with
  | none => .error .unresolvedMetadata
  | some fams =>
    match vlookup "project_id" ds.globalAttrs with
    | none => .error .unresolvedMetadata
    | some fam =>
      match vlookup fam fams with
      | none => .error .unresolvedMetadata
      | some attrName =>
        match vlookup attrName ds.globalAttrs with
        | none => .error .unresolvedMetadata
        | some v => .ok v

/-- The four standard axis codes tested by unique_id. -/
def stdAxes : List String := ["X", "Y", "Z", "T"]

/-- Sorted insertion into a sorted list of strings. -/
def insertStr (x : String) : List String → List String
  | [] => [x]
  | y :: ys => if x ≤ y then x :: y :: ys else y :: insertStr x ys

/-- sorted() on strings (lexicographic). -/
def sortStr (l : List String) : List String :=
  l.foldr insertStr []

/-- The axes fragment of CFDataset.unique_id: empty when the recognized axis
codes are a subset of X, Y, Z, T, else _dim followed by the sorted codes. -/
def axes_part (ds : CFDataset) : String :=
  if ((dim_axes_from_names ds none).map Prod.fst).all
      (fun k => decide (k ∈ stdAxes)) then ""
  else "_dim" ++
    String.join (sortStr ((dim_axes_from_names ds none).map Prod.fst))

/-- str.replace('+', '-'): a character-wise replacement since the pattern is
a single character. -/
def replacePlus (s : String) : String :=
  String.mk (s.data.map (fun c => if c = '+' then '-' else c))

/-- CFDataset.unique_id: the formatted token string, with the format
arguments evaluated in their order of appearance and the final
replace('+', '-'). -/
def unique_id (decode : Num2Date) (ds : CFDataset) : Except NCError String :=
  match time_resolution decode ds with
  | .error e => .error e
  | .ok tres =>
    match unified_metadata_get ds "model" with
    | .error e => .error e
    | .ok model =>
      match unified_metadata_get ds "emissions" with
      | .error e => .error e
      | .ok emissions =>
        match unified_metadata_get ds "run" with
        | .error e => .error e
        | .ok runv =>
          match time_range_formatted decode ds with
          | .error e => .error e
          | .ok trange =>
            .ok (replacePlus
              (String.intercalate "-" (important_varnames ds) ++ "_" ++
               tres ++ "_" ++ model ++ "_" ++ emissions ++ "_" ++ runv ++
               "_" ++ trange ++ axes_part ds))

/-! Concrete datasets used to instantiate the theorems below. -/

/-- A dataset with no dimensions, variables or attributes. -/
def dsEmpty : CFDataset := ⟨[], [], []⟩

/-- A dataset whose only dimension is time, with no variables at all. -/
def dsTimeOnly : CFDataset := ⟨["time"], [], []⟩

/-- A coordinate variable named lat carrying an axis attribute Z. -/
def latZVar : NCVar := ⟨["lat"], some "Z", none, none, none, none, []⟩

/-- latZVar with an additional compress attribute. -/
def latZCompressVar : NCVar :=
  ⟨["lat"], some "Z", some "lon lat", none, none, none, []⟩

/-- A dataset whose dimension lat is also a variable with axis = Z. -/
def ds1 : CFDataset := ⟨["lat"], [("lat", latZVar)], []⟩

/-- ds1 with the compress attribute added to the lat variable. -/
def ds1c : CFDataset := ⟨["lat"], [("lat", latZCompressVar)], []⟩

/-- A time coordinate variable with a climatology attribute. -/
def climTimeVar : NCVar :=
  ⟨["time"], none, none, some "days since 1950-01-01", some "365_day",
   some "climatology_bounds", [0, 30]⟩

/-- A dataset with a proper time dimension whose variable carries a
climatology attribute naming a bounds variable. -/
def ds7 : CFDataset := ⟨["time"], [("time", climTimeVar)], []⟩

/-- The time variable of the end-to-end scenario: days since 1950-01-01 on a
365_day calendar, monthly-spaced values. -/
def timeVarE2E : NCVar :=
  ⟨["time"], none, none, some "days since 1950-01-01", some "365_day", none,
   [0, 30, 60, 90]⟩

/-- The dependent variable of the end-to-end scenario. -/
def tasmaxVar : NCVar :=
  ⟨["time", "lat", "lon"], none, none, none, none, none, []⟩

/-- The end-to-end scenario dataset: dimensions lon, lat, time; one dependent
variable tasmax; CMIP5 global attributes. -/
def dsE2E : CFDataset :=
  ⟨["lon", "lat", "time"],
   [("time", timeVarE2E), ("tasmax", tasmaxVar)],
   [("project_id", "CMIP5"), ("model_id", "CanESM2"),
    ("experiment_id", "rcp85"), ("parent_experiment_rip", "r1i1p1")]⟩

/-- A concrete decoder for days since 1950-01-01 on the 365_day calendar,
tabulated at the numeric values the end-to-end scenario uses. -/
def decodeE2E : Num2Date := fun q _ _ =>
  if q = 0 then ⟨1950, 1, 1⟩
  else if q = 30 then ⟨1950, 1, 31⟩
  else if q = 60 then ⟨1950, 3, 2⟩
  else if q = 90 then ⟨1950, 4, 1⟩
  else ⟨1, 1, 1⟩

/-- The time descriptor of the end-to-end scenario dataset. -/
def descE2E : TimeDescriptor :=
  ⟨"days since 1950-01-01", "365_day", [0, 30, 60, 90],
   [0, 30, 60, 90].map
     (fun q => decodeE2E q "days since 1950-01-01" "365_day")⟩

/-- A time variable realizing the spec's median-robustness example: the
successive steps are 30, 30, 30, 31, 30 days. -/
def timeVar5 : NCVar :=
  ⟨["time"], none, none, some "days since 1950-01-01", some "365_day", none,
   [0, 30, 60, 90, 121, 151]⟩

/-- A dataset built around timeVar5. -/
def ds5 : CFDataset := ⟨["time"], [("time", timeVar5)], []⟩

/-- The time descriptor of ds5. -/
def desc5 : TimeDescriptor :=
  ⟨"days since 1950-01-01", "365_day", [0, 30, 60, 90, 121, 151],
   [0, 30, 60, 90, 121, 151].map
     (fun q => decodeE2E q "days since 1950-01-01" "365_day")⟩

/-! Helper lemmas about the dictionary model. -/

/-- Looking a key up after a Python dict assignment: the assigned key reads
back the new value and every other key is unaffected. -/
theorem vlookup_dictInsert (a k v : String) (l : List (String × String)) :
    vlookup a (dictInsert k v l) = if a = k then some v else vlookup a l := by
  induction l with
  | nil =>
    by_cases h : a = k
    · simp [dictInsert, vlookup, h]
    · have h' : ¬(k = a) := fun hh => h hh.symm
      simp [dictInsert, vlookup, h, h']
  | cons p rest ih =>
    by_cases hpk : p.1 = k
    · by_cases hak : a = k
      · simp [dictInsert, vlookup, hpk, hak]
      · have hka : ¬(k = a) := fun hh => hak hh.symm
        have hpa : ¬(p.1 = a) := by rw [hpk]; exact hka
        simp [dictInsert, vlookup, hpk, hak, hka, hpa]
    · by_cases hpa : p.1 = a
      · have hak : ¬(a = k) := fun hh => hpk (hpa.trans hh)
        simp [dictInsert, vlookup, hpk, hpa, hak]
      · simp [dictInsert, vlookup, hpk, hpa, ih]

/-- Every entry of a dict after an assignment is the assigned pair or one of
the previous entries. -/
theorem mem_dictInsert {q : String × String} {k v : String}
    {l : List (String × String)} (h : q ∈ dictInsert k v l) :
    q = (k, v) ∨ q ∈ l := by
  induction l with
  | nil => simpa [dictInsert] using h
  | cons p rest ih =>
    by_cases hpk : p.1 = k
    · rw [dictInsert, if_pos hpk] at h
      rcases List.mem_cons.mp h with h | h
      · exact Or.inl h
      · exact Or.inr (List.mem_cons_of_mem p h)
    · rw [dictInsert, if_neg hpk] at h
      rcases List.mem_cons.mp h with h | h
      · exact Or.inr (h ▸ List.mem_cons_self p rest)
      · rcases ih h with h | h
        · exact Or.inl h
        · exact Or.inr (List.mem_cons_of_mem p h)

/-- A successful vlookup pairs the searched key with the returned value
inside the list. -/
theorem vlookup_pair_mem {α : Type} {l : List (String × α)} {k : String}
    {v : α} (h : vlookup k l = some v) : (k, v) ∈ l := by
  induction l with
  | nil => exact Option.noConfusion h
  | cons p rest ih =>
    rw [vlookup] at h
    by_cases hpk : p.1 = k
    · rw [if_pos hpk] at h
      injection h with h2
      have hp : p = (k, v) := by
        rcases p with ⟨p1, p2⟩
        simp_all
      rw [← hp]
      exact List.mem_cons_self p rest
    · rw [if_neg hpk] at h
      exact List.mem_cons_of_mem p (ih h)

/-- Every axis code produced by the dim_to_axis table is one of X, Y, Z, T. -/
theorem dim_to_axis_mem_std {d a : String} (h : dim_to_axis d = some a) :
    a ∈ stdAxes := by
  have hmem : (d, a) ∈ dim_to_axis_table := vlookup_pair_mem h
  have hval : a ∈ dim_to_axis_table.map Prod.snd :=
    List.mem_map_of_mem Prod.snd hmem
  simp only [dim_to_axis_table, List.map, stdAxes, List.mem_cons,
    List.not_mem_nil, or_false] at hval ⊢
  tauto

/-- Every pair in the dict built by dim_axes_from_names comes from the
dim_to_axis table: the key is the table's code for the value.  Stated for the
underlying fold with an arbitrary sound accumulator. -/
theorem axes_fold_sound (dns : List String)
    (acc : List (String × String))
    (hacc : ∀ q ∈ acc, dim_to_axis q.2 = some q.1) :
    ∀ q ∈ dns.foldl (fun acc dim =>
        match dim_to_axis dim with
        | some ax => dictInsert ax dim acc
        | none => acc) acc,
      dim_to_axis q.2 = some q.1 := by
  induction dns generalizing acc with
  | nil => simpa using hacc
  | cons d rest ih =>
    rcases hda : dim_to_axis d with _ | a
    · rw [List.foldl_cons]
      simp only [hda]
      exact ih acc hacc
    · rw [List.foldl_cons]
      simp only [hda]
      refine ih (dictInsert a d acc) ?_
      intro q hq
      rcases mem_dictInsert hq with h | h
      · rw [h]; exact hda
      · exact hacc q h

/-- The keys of dim_axes_from_names are always among the standard codes
X, Y, Z, T. -/
theorem dim_axes_from_names_keys_std (ds : CFDataset)
    (arg : Option (List String)) :
    ∀ k ∈ (dim_axes_from_names ds arg).map Prod.fst, k ∈ stdAxes := by
  intro k hk
  rcases List.mem_map.mp hk with ⟨q, hq, hqk⟩
  have hsound := axes_fold_sound (resolveDims ds arg) [] (by simp) q hq
  subst hqk
  exact dim_to_axis_mem_std hsound

/-- The head of a nonempty list always has a last element. -/
theorem getLast?_cons_isSome {α : Type} (y : α) (t : List α) :
    ((y :: t).getLast?).isSome := by
  induction t generalizing y with
  | nil => rfl
  | cons z t' ih =>
    rw [List.getLast?_cons_cons]
    exact ih z

/-- Last-write-wins reading of the dict built by dim_axes_from_names: looking
up an axis code returns the last name of the list whose table code is that
axis.  Stated for the underlying fold with an arbitrary accumulator. -/
theorem axes_fold_lookup (dns : List String)
    (acc : List (String × String)) (a : String) :
    vlookup a (dns.foldl (fun acc dim =>
        match dim_to_axis dim with
        | some ax => dictInsert ax dim acc
        | none => acc) acc) =
      match (dns.filter (fun d => decide (dim_to_axis d = some a))).getLast?
        with
      | some d => some d
      | none => vlookup a acc := by
  induction dns generalizing acc with
  | nil => simp
  | cons d rest ih =>
    rcases hda : dim_to_axis d with _ | a'
    · have hpa : decide (dim_to_axis d = some a) = false := by simp [hda]
      rw [List.foldl_cons, List.filter_cons,
        if_neg (fun h => Bool.false_ne_true (hpa.symm.trans h))]
      simp only [hda]
      exact ih acc
    · by_cases hc : a' = a
      · subst hc
        have hpa : decide (dim_to_axis d = some a') = true := by simp [hda]
        rw [List.foldl_cons, List.filter_cons, if_pos hpa]
        simp only [hda]
        have ih' := ih (dictInsert a' d acc)
        rcases hf : rest.filter (fun x => decide (dim_to_axis x = some a'))
          with _ | ⟨y, t⟩
        · rw [hf] at ih'
          simp only [List.getLast?_nil] at ih'
          rw [ih']
          simp only [List.getLast?_singleton]
          rw [vlookup_dictInsert, if_pos rfl]
        · rw [hf] at ih'
          rw [ih', List.getLast?_cons_cons]
          rcases hg : (y :: t).getLast? with _ | z
          · have hs := getLast?_cons_isSome y t
            rw [hg] at hs
            simp at hs
          · rfl
      · have hpa : decide (dim_to_axis d = some a) = false := by
          simp [hda, hc]
        rw [List.foldl_cons, List.filter_cons,
          if_neg (fun h => Bool.false_ne_true (hpa.symm.trans h))]
        simp only [hda]
        have ih' := ih (dictInsert a' d acc)
        have hv : vlookup a (dictInsert a' d acc) = vlookup a acc := by
          rw [vlookup_dictInsert, if_neg (fun hh => hc hh.symm)]
        rw [ih', hv]

/-! The claims. -/

/-- C1: the claim says that in dim_axes a dimension whose name is also a
variable with an axis attribute gets that attribute's value (so a dimension
lat that is a variable with axis = Z would be reported as Z, or as S with a
compress attribute).  The code instead keys the override on the axis CODE
being a dimension-and-variable name, so on exactly the claimed input the
override never fires and lat is still reported as Y, with or without a
compress attribute. -/
theorem c1_dim_axes_ignores_axis_attribute :
    dim_axes ds1 none = [("lat", "Y")] ∧ dim_axes ds1c none = [("lat", "Y")] :=
  ⟨rfl, rfl⟩

/-- C2 (amended): for a nonempty list of dimension names,
dim_axes_from_names associates each axis code with the LAST name in the list
whose table code is that axis (last write wins; a recognized name can
therefore be dropped when a later name shares its code), every pair in the
result comes from the code's fixed lookup table dim_to_axis - in which
latitude carries the code Y, not the X the claim's respectively-list
documents - and the operation is total. -/
theorem c2_dim_axes_from_names_table (ds : CFDataset) (dns : List String)
    (h : dns ≠ []) :
    (∀ a : String, vlookup a (dim_axes_from_names ds (some dns)) =
       (dns.filter (fun d => decide (dim_to_axis d = some a))).getLast?)
    ∧ (∀ q ∈ dim_axes_from_names ds (some dns),
        dim_to_axis q.2 = some q.1) := by
  have hres : resolveDims ds (some dns) = dns := by
    simp only [resolveDims]
    rw [if_neg h]
  constructor
  · intro a
    rw [dim_axes_from_names, hres, axes_fold_lookup]
    rcases hf : dns.filter (fun d => decide (dim_to_axis d = some a))
      with _ | ⟨y, t⟩
    · simp [vlookup]
    · rcases hg : (y :: t).getLast? with _ | z
      · have hs := getLast?_cons_isSome y t
        rw [hg] at hs
        simp at hs
      · rfl
  · intro q hq
    rw [dim_axes_from_names, hres] at hq
    exact axes_fold_sound dns [] (by simp) q hq

/-- C2 witness: on the single recognized name lat the lookup under axis code
Y returns lat. -/
theorem c2_dim_axes_from_names_table_witness :
    vlookup "Y" (dim_axes_from_names dsEmpty (some ["lat"])) = some "lat" :=
  ((c2_dim_axes_from_names_table dsEmpty ["lat"] (by decide)).1 "Y").trans
    (by rfl)

/-- C2 counterexample: two independent divergences of the code from the
claim.  First, lat and yc both carry the code Y in the code's table, and
only the later name yc is kept, so the recognized name lat is not mapped at
all even though the claim promises every recognized name is mapped.
Second, the claim's table documents latitude with the axis code X (the
second entry of its respectively-list), but the code's table has
latitude mapped to Y, so latitude is paired with Y and the pair with X the
claim promises is absent. -/
theorem c2_collision_counterexample :
    (dim_axes_from_names dsEmpty (some ["lat", "yc"]) = [("Y", "yc")] ∧
      ("Y", "lat") ∉ dim_axes_from_names dsEmpty (some ["lat", "yc"])) ∧
    (dim_axes_from_names dsEmpty (some ["latitude"]) = [("Y", "latitude")] ∧
      ("X", "latitude") ∉ dim_axes_from_names dsEmpty
        (some ["latitude"])) := by
  refine ⟨⟨rfl, by decide⟩, rfl, by decide⟩

/-- C3 (amended): calling dim_axes with an explicit empty list does NOT
short-circuit; the empty list is falsy in Python, so the code falls back to
the dataset's own dimension list (querying the dataset), and only a dataset
with no dimensions yields the empty mapping on that path. -/
theorem c3_dim_axes_empty_arg (ds : CFDataset) :
    dim_axes ds (some []) = dim_axes ds none
    ∧ (ds.dimensions = [] → dim_axes ds (some []) = []) := by
  constructor
  · rfl
  · intro h
    simp [dim_axes, resolveDims, dim_names, h]

/-- C3 witness: on the dataset with no dimensions the empty-list call indeed
returns the empty mapping. -/
theorem c3_dim_axes_empty_arg_witness :
    dim_axes dsEmpty (some []) = [] :=
  (c3_dim_axes_empty_arg dsEmpty).2 rfl

/-- C3 counterexample: on a dataset whose only dimension is time, dim_axes
with an explicit empty list returns the mapping for the dataset's own
dimensions, not the empty mapping the claim promises. -/
theorem c3_counterexample :
    dim_axes dsTimeOnly (some []) = [("time", "T")] ∧
    dim_axes dsTimeOnly (some []) ≠ [] := by
  constructor
  · rfl
  · decide

/-- C10: every key of dim_axes_from_names is one of the standard axis codes
X, Y, Z, T (the code S never occurs), hence the axes suffix computed inside
unique_id is the empty string for every dataset. -/
theorem c10_axis_codes_standard (ds : CFDataset) (arg : Option (List String)) :
    (∀ k ∈ (dim_axes_from_names ds arg).map Prod.fst, k ∈ stdAxes)
    ∧ axes_part ds = "" := by
  refine ⟨dim_axes_from_names_keys_std ds arg, ?_⟩
  have hall : ((dim_axes_from_names ds none).map Prod.fst).all
      (fun k => decide (k ∈ stdAxes)) = true := by
    apply List.all_eq_true.mpr
    intro k hk
    exact decide_eq_true (dim_axes_from_names_keys_std ds none k hk)
  rw [axes_part, if_pos hall]

/-- C10 witness: instantiated at the end-to-end dataset. -/
theorem c10_axis_codes_standard_witness : axes_part dsE2E = "" :=
  (c10_axis_codes_standard dsE2E none).2

/-- C4 (amended): time_steps fails with the missing-axis error exactly when
no dimension name resolves to T through the lookup table; when the T
dimension resolves but the dataset has no variable of that name the code
raises a plain KeyError instead; otherwise it fails with the
missing-attribute error exactly when the time variable lacks units or
calendar, and in the remaining case returns the descriptor. -/
theorem c4_time_steps_failure_modes (decode : Num2Date) (ds : CFDataset) :
    (time_steps decode ds = .error .missingAxis ↔
      vlookup "T" (dim_axes_from_names ds none) = none)
    ∧ (∀ ta, vlookup "T" (dim_axes_from_names ds none) = some ta →
        dsVar ds ta = none → time_steps decode ds = .error .keyError)
    ∧ (time_steps decode ds = .error .missingAttribute ↔
        ∃ ta v, vlookup "T" (dim_axes_from_names ds none) = some ta ∧
          dsVar ds ta = some v ∧ (v.units = none ∨ v.calendar = none))
    ∧ (∀ ta v u c, vlookup "T" (dim_axes_from_names ds none) = some ta →
        dsVar ds ta = some v → v.units = some u → v.calendar = some c →
        time_steps decode ds =
          .ok ⟨u, c, v.values, v.values.map (fun q => decode q u c)⟩) := by
  rcases h1 : vlookup "T" (dim_axes_from_names ds none) with _ | ta
  · have hts : time_steps decode ds = .error .missingAxis := by
      simp only [time_steps, h1]
    refine ⟨?_, ?_, ?_, ?_⟩
    · rw [hts]
      simp [h1]
    · intro ta hta hv
      exact Option.noConfusion hta
    · rw [hts]
      constructor
      · intro h
        exact absurd h (by simp)
      · rintro ⟨ta, v, hta, _, _⟩
        exact Option.noConfusion hta
    · intro ta v u c hta hv hu hc
      exact Option.noConfusion hta
  · rcases h2 : dsVar ds ta with _ | v
    · have hts : time_steps decode ds = .error .keyError := by
        simp only [time_steps, h1, h2]
      refine ⟨?_, ?_, ?_, ?_⟩
      · rw [hts]
        constructor
        · intro h
          exact absurd h (by simp)
        · intro h
          exact Option.noConfusion h
      · intro ta' hta' hv'
        exact hts
      · rw [hts]
        constructor
        · intro h
          exact absurd h (by simp)
        · rintro ⟨ta', v', hta', hv', _⟩
          injection hta' with he
          subst he
          rw [h2] at hv'
          exact Option.noConfusion hv'
      · intro ta' v' u c hta' hv' hu hc
        injection hta' with he
        subst he
        rw [h2] at hv'
        exact Option.noConfusion hv'
    · rcases h3 : v.units with _ | u
      · have hts : time_steps decode ds = .error .missingAttribute := by
          simp only [time_steps, h1, h2, h3]
        refine ⟨?_, ?_, ?_, ?_⟩
        · rw [hts]
          constructor
          · intro h
            exact absurd h (by simp)
          · intro h
            exact Option.noConfusion h
        · intro ta' hta' hv'
          injection hta' with he
          subst he
          rw [h2] at hv'
          exact Option.noConfusion hv'
        · rw [hts]
          constructor
          · intro _
            exact ⟨ta, v, rfl, h2, Or.inl h3⟩
          · intro _
            rfl
        · intro ta' v' u c hta' hv' hu hc
          injection hta' with he
          subst he
          rw [h2] at hv'
          injection hv' with hv2
          subst hv2
          rw [h3] at hu
          exact Option.noConfusion hu
      · rcases h4 : v.calendar with _ | c
        · have hts : time_steps decode ds = .error .missingAttribute := by
            simp only [time_steps, h1, h2, h3, h4]
          refine ⟨?_, ?_, ?_, ?_⟩
          · rw [hts]
            constructor
            · intro h
              exact absurd h (by simp)
            · intro h
              exact Option.noConfusion h
          · intro ta' hta' hv'
            injection hta' with he
            subst he
            rw [h2] at hv'
            exact Option.noConfusion hv'
          · rw [hts]
            constructor
            · intro _
              exact ⟨ta, v, rfl, h2, Or.inr h4⟩
            · intro _
              rfl
          · intro ta' v' u' c' hta' hv' hu hc
            injection hta' with he
            subst he
            rw [h2] at hv'
            injection hv' with hv2
            subst hv2
            rw [h4] at hc
            exact Option.noConfusion hc
        · have hts : time_steps decode ds =
              .ok ⟨u, c, v.values, v.values.map (fun q => decode q u c)⟩ := by
            simp only [time_steps, h1, h2, h3, h4]
          refine ⟨?_, ?_, ?_, ?_⟩
          · rw [hts]
            constructor
            · intro h
              exact absurd h (by simp)
            · intro h
              exact Option.noConfusion h
          · intro ta' hta' hv'
            injection hta' with he
            subst he
            rw [h2] at hv'
            exact Option.noConfusion hv'
          · rw [hts]
            constructor
            · intro h
              exact absurd h (by simp)
            · rintro ⟨ta', v', hta', hv', hd⟩
              injection hta' with he
              subst he
              rw [h2] at hv'
              injection hv' with hv2
              subst hv2
              rcases hd with hd | hd
              · rw [h3] at hd
                exact Option.noConfusion hd
              · rw [h4] at hd
                exact Option.noConfusion hd
          · intro ta' v' u' c' hta' hv' hu hc
            injection hta' with he
            subst he
            rw [h2] at hv'
            injection hv' with hv2
            subst hv2
            rw [h3] at hu
            injection hu with hu2
            subst hu2
            rw [h4] at hc
            injection hc with hc2
            subst hc2
            exact hts

/-- C4 witness: on the end-to-end dataset the fourth case applies and the
descriptor is returned. -/
theorem c4_time_steps_failure_modes_witness :
    time_steps decodeE2E dsE2E = .ok descE2E :=
  (c4_time_steps_failure_modes decodeE2E dsE2E).2.2.2 "time" timeVarE2E
    "days since 1950-01-01" "365_day" (by rfl) (by rfl) (by rfl) (by rfl)

/-- C4 counterexample: a dataset whose only dimension is time but with no
variables at all; a dimension resolves to T and yet time_steps raises a
KeyError, which is neither of the two failures the claim enumerates, and no
descriptor is returned. -/
theorem c4_counterexample :
    time_steps decodeE2E dsTimeOnly = .error .keyError ∧
    NCError.keyError ≠ NCError.missingAxis ∧
    NCError.keyError ≠ NCError.missingAttribute := by
  refine ⟨rfl, ?_, ?_⟩ <;> decide

/-- C5: given a resolvable time descriptor, time_step_size fails with the
malformed-units error exactly when the units string does not start with one
of days, hours, minutes, seconds followed by one space and the word since;
otherwise it returns the median of the successive differences of the numeric
values, converted from the parsed unit into seconds. -/
theorem c5_time_step_size (decode : Num2Date) (ds : CFDataset)
    (d : TimeDescriptor) (hts : time_steps decode ds = .ok d) :
    (time_step_size decode ds = .error .malformedUnits ↔
      parse_time_units_scale d.units = none)
    ∧ (∀ scale, parse_time_units_scale d.units = some scale →
        time_step_size decode ds =
          .ok (time_to_seconds (median (diffs d.numeric)) scale)) := by
  rcases hp : parse_time_units_scale d.units with _ | sc
  · have hss : time_step_size decode ds = .error .malformedUnits := by
      simp only [time_step_size, hts, hp]
    refine ⟨?_, ?_⟩
    · rw [hss]
      simp [hp]
    · intro scale h
      exact Option.noConfusion h
  · have hss : time_step_size decode ds =
        .ok (time_to_seconds (median (diffs d.numeric)) sc) := by
      simp only [time_step_size, hts, hp]
    refine ⟨?_, ?_⟩
    · rw [hss]
      constructor
      · intro h
        exact absurd h (by simp)
      · intro h
        exact Option.noConfusion h
    · intro scale h
      have h2 : sc = scale := Option.some.inj h
      subst h2
      exact hss

/-- C5 witness: the spec's median-robustness example; steps of 30, 30, 30,
31, 30 days give a median of 30 days, i.e. 2592000 seconds. -/
theorem c5_time_step_size_witness :
    time_step_size decodeE2E ds5 = .ok 2592000 := by
  have h := (c5_time_step_size decodeE2E ds5 desc5 (by rfl)).2 "days" (by rfl)
  rw [h]
  have hm : median (diffs desc5.numeric) = 30 := by
    norm_num [desc5, diffs, median, sortRat, insertRat]
  rw [hm]
  norm_num [time_to_seconds]

/-! Evaluation lemmas for the end-to-end dataset, used to discharge the
hypotheses of the witnesses below. -/

/-- time_steps on the end-to-end dataset. -/
theorem time_steps_dsE2E : time_steps decodeE2E dsE2E = .ok descE2E := rfl

/-- The median step of the end-to-end dataset in seconds: 30 days. -/
theorem time_step_size_dsE2E :
    time_step_size decodeE2E dsE2E = .ok 2592000 := by
  simp only [time_step_size, time_steps_dsE2E]
  simp only [show parse_time_units_scale descE2E.units = some "days" from
    rfl]
  have hm : median (diffs descE2E.numeric) = 30 := by
    norm_num [descE2E, diffs, median, sortRat, insertRat]
  rw [hm]
  norm_num [time_to_seconds]

/-- The end-to-end dataset classifies as monthly. -/
theorem time_resolution_dsE2E :
    time_resolution decodeE2E dsE2E = .ok "monthly" := by
  simp only [time_resolution, time_step_size_dsE2E]
  have h : resolution_standard_name 2592000 = "monthly" := by
    norm_num [resolution_standard_name]
  rw [h]

/-- Numeric time range of the end-to-end dataset. -/
theorem time_range_dsE2E : time_range decodeE2E dsE2E = .ok (0, 90) := by
  simp only [time_range, time_steps_dsE2E]
  norm_num [descE2E, min_def, max_def]

/-- Formatted time range of the end-to-end dataset. -/
theorem time_range_formatted_dsE2E :
    time_range_formatted decodeE2E dsE2E = .ok "195001-195004" := by
  simp only [time_range_formatted, time_resolution_dsE2E, time_range_dsE2E,
    time_steps_dsE2E]
  rfl

/-- C7: the claim says climatology_bounds_var_name returns the climatology
attribute of the time variable whenever a dimension resolves to T.  The code
tests T against the KEYS of the dimension-name-to-axis mapping, where an
axis code can never appear, so on a dataset with a proper time dimension
whose variable carries climatology = climatology_bounds the result is none
and is_multi_year_mean is false, whatever the external membership test on
the variable does. -/
theorem c7_climatology_never_found :
    ∀ varContains : NCVar → String → Bool,
      climatology_bounds_var_name varContains ds7 = .ok none ∧
      is_multi_year_mean varContains ds7 = .ok false :=
  fun _ => ⟨rfl, rfl⟩

/-- C6: when the resolution class is computable, time_range_formatted
formats the decoded minimum and maximum datetimes year-only for yearly,
year plus month for monthly, year plus month plus day for daily, and fails
with the unsupported-resolution error for every other resolution class.
The last three conjuncts record what the three format strings render. -/
theorem c6_time_range_formatted (decode : Num2Date) (ds : CFDataset)
    (d : TimeDescriptor) (res : String) (tmin tmax : Rat)
    (hres : time_resolution decode ds = .ok res)
    (hrange : time_range decode ds = .ok (tmin, tmax))
    (hts : time_steps decode ds = .ok d) :
    (res = "yearly" → time_range_formatted decode ds =
      .ok (strftimeFmt "%Y" (decode tmin d.units d.calendar) ++ "-" ++
           strftimeFmt "%Y" (decode tmax d.units d.calendar)))
    ∧ (res = "monthly" → time_range_formatted decode ds =
      .ok (strftimeFmt "%Y%m" (decode tmin d.units d.calendar) ++ "-" ++
           strftimeFmt "%Y%m" (decode tmax d.units d.calendar)))
    ∧ (res = "daily" → time_range_formatted decode ds =
      .ok (strftimeFmt "%Y%m%d" (decode tmin d.units d.calendar) ++ "-" ++
           strftimeFmt "%Y%m%d" (decode tmax d.units d.calendar)))
    ∧ (res ≠ "yearly" → res ≠ "monthly" → res ≠ "daily" →
      time_range_formatted decode ds = .error .unsupportedResolution)
    ∧ (∀ dt, strftimeFmt "%Y" dt = padZeros 4 dt.year)
    ∧ (∀ dt, strftimeFmt "%Y%m" dt =
        padZeros 4 dt.year ++ padZeros 2 dt.month)
    ∧ (∀ dt, strftimeFmt "%Y%m%d" dt =
        padZeros 4 dt.year ++ padZeros 2 dt.month ++ padZeros 2 dt.day) := by
  refine ⟨?_, ?_, ?_, ?_, ?_, ?_, ?_⟩
  · intro h
    subst h
    simp [time_range_formatted, hres, hrange, hts, fmtForResolution]
  · intro h
    subst h
    simp [time_range_formatted, hres, hrange, hts, fmtForResolution]
  · intro h
    subst h
    simp [time_range_formatted, hres, hrange, hts, fmtForResolution]
  · intro h1 h2 h3
    simp [time_range_formatted, hres, fmtForResolution, h1, h2, h3]
  · intro dt
    simp [strftimeFmt]
  · intro dt
    simp [strftimeFmt]
  · intro dt
    simp [strftimeFmt]

/-- C6 witness: the monthly end-to-end dataset formats its range as
year plus month on both ends. -/
theorem c6_time_range_formatted_witness :
    time_range_formatted decodeE2E dsE2E = .ok "195001-195004" := by
  have h := (c6_time_range_formatted decodeE2E dsE2E descE2E "monthly" 0 90
    time_resolution_dsE2E time_range_dsE2E time_steps_dsE2E).2.1 rfl
  rw [h]
  rfl

/-- C8: the unified metadata lookup for model reads the source attribute
under project family CMIP3 and model_id under CMIP5 when those attributes
exist; an unrecognized or missing project family, a concept absent from the
alias table, a family absent from the concept's aliases, and a missing
underlying attribute all produce the one same unresolved-metadata error, so
callers cannot distinguish the causes. -/
theorem c8_unified_metadata (ds : CFDataset) :
    (vlookup "project_id" ds.globalAttrs = some "CMIP3" →
      unified_metadata_get ds "model" =
        match vlookup "source" ds.globalAttrs with
        | none => .error .unresolvedMetadata
        | some v => .ok v)
    ∧ (vlookup "project_id" ds.globalAttrs = some "CMIP5" →
      unified_metadata_get ds "model" =
        match vlookup "model_id" ds.globalAttrs with
        | none => .error .unresolvedMetadata
        | some v => .ok v)
    ∧ (vlookup "project_id" ds.globalAttrs = none →
      ∀ item, unified_metadata_get ds item = .error .unresolvedMetadata)
    ∧ (∀ item, vlookup item aliasTable = none →
      unified_metadata_get ds item = .error .unresolvedMetadata)
    ∧ (∀ item fams fam, vlookup item aliasTable = some fams →
      vlookup "project_id" ds.globalAttrs = some fam →
      vlookup fam fams = none →
      unified_metadata_get ds item = .error .unresolvedMetadata)
    ∧ (∀ item fams fam attrName, vlookup item aliasTable = some fams →
      vlookup "project_id" ds.globalAttrs = some fam →
      vlookup fam fams = some attrName →
      vlookup attrName ds.globalAttrs = none →
      unified_metadata_get ds item = .error .unresolvedMetadata) := by
  refine ⟨?_, ?_, ?_, ?_, ?_, ?_⟩
  · intro h
    simp only [unified_metadata_get,
      show vlookup "model" aliasTable =
        some [("CMIP3", "source"), ("CMIP5", "model_id")] from rfl, h]
    simp only [show vlookup "CMIP3"
        [("CMIP3", "source"), ("CMIP5", "model_id")] = some "source" from
      rfl]
  · intro h
    simp only [unified_metadata_get,
      show vlookup "model" aliasTable =
        some [("CMIP3", "source"), ("CMIP5", "model_id")] from rfl, h]
    simp only [show vlookup "CMIP5"
        [("CMIP3", "source"), ("CMIP5", "model_id")] = some "model_id" from
      rfl]
  · intro h item
    simp only [unified_metadata_get, h]
    rcases ha : vlookup item aliasTable with _ | fams
    · rfl
    · rfl
  · intro item h
    simp only [unified_metadata_get, h]
  · intro item fams fam h1 h2 h3
    simp only [unified_metadata_get, h1, h2, h3]
  · intro item fams fam attrName h1 h2 h3 h4
    simp only [unified_metadata_get, h1, h2, h3, h4]

/-- C8 witness: on the CMIP5 end-to-end dataset the model concept resolves
to the model_id attribute. -/
theorem c8_unified_metadata_witness :
    unified_metadata_get dsE2E "model" = .ok "CanESM2" := by
  have h := (c8_unified_metadata dsE2E).2.1 (by rfl)
  rw [h]
  rfl

/-- C9: when every component query succeeds, unique_id is the plus-to-hyphen
normalization of the dependent variable names joined by hyphens, the
resolution class, the unified model, emissions and run values, and the
formatted time range, joined by underscores, followed by the axes fragment;
the axes fragment is empty when all recognized axis codes are standard and
otherwise is _dim followed by the sorted codes. -/
theorem c9_unique_id (decode : Num2Date) (ds : CFDataset)
    (tres model emissions runv trange : String)
    (htres : time_resolution decode ds = .ok tres)
    (hmodel : unified_metadata_get ds "model" = .ok model)
    (hemis : unified_metadata_get ds "emissions" = .ok emissions)
    (hrun : unified_metadata_get ds "run" = .ok runv)
    (htrange : time_range_formatted decode ds = .ok trange) :
    unique_id decode ds = .ok (replacePlus
      (String.intercalate "-" (important_varnames ds) ++ "_" ++ tres ++
       "_" ++ model ++ "_" ++ emissions ++ "_" ++ runv ++ "_" ++ trange ++
       axes_part ds))
    ∧ ((∀ k ∈ (dim_axes_from_names ds none).map Prod.fst, k ∈ stdAxes) →
      axes_part ds = "")
    ∧ ((∃ k ∈ (dim_axes_from_names ds none).map Prod.fst, k ∉ stdAxes) →
      axes_part ds = "_dim" ++
        String.join (sortStr ((dim_axes_from_names ds none).map
          Prod.fst))) := by
  refine ⟨?_, ?_, ?_⟩
  · simp only [unique_id, htres, hmodel, hemis, hrun, htrange]
  · intro hall
    have h : ((dim_axes_from_names ds none).map Prod.fst).all
        (fun k => decide (k ∈ stdAxes)) = true := by
      apply List.all_eq_true.mpr
      intro k hk
      exact decide_eq_true (hall k hk)
    rw [axes_part, if_pos h]
  · rintro ⟨k, hk, hknot⟩
    have h : ¬(((dim_axes_from_names ds none).map Prod.fst).all
        (fun k => decide (k ∈ stdAxes)) = true) := by
      intro hall
      have hmem := List.all_eq_true.mp hall k hk
      rw [decide_eq_true_eq] at hmem
      exact hknot hmem
    rw [axes_part, if_neg h]

/-- C9 witness: the end-to-end scenario dataset yields exactly the
identifier the spec predicts, with no axes suffix. -/
theorem c9_unique_id_witness :
    unique_id decodeE2E dsE2E =
      .ok "tasmax_monthly_CanESM2_rcp85_r1i1p1_195001-195004" := by
  have h := (c9_unique_id decodeE2E dsE2E "monthly" "CanESM2" "rcp85"
    "r1i1p1" "195001-195004" time_resolution_dsE2E (by rfl) (by rfl)
    (by rfl) time_range_formatted_dsE2E).1
  rw [h]
  rfl

end NC
